import Mathlib

/-!
Verification development for the 4o-agent repository.

The Lean definitions below form a shallow embedding of the Python sources
`src/app.py` and `src/agent/tools.py`.  External effects (the filesystem,
subprocesses, the network, the search backend and the language model) are
passed in as explicit oracle functions, so every definition is executable
on concrete inputs.  Each tool keeps the name of the Python function it
embeds.
-/

/-- Outcome of a Python function call: either a returned value or an
uncaught exception (identified by its class name). -/
inductive PyResult (α : Type) where
  | ret (val : α)
  | raises (exc : String)
deriving DecidableEq, Repr

/-- An HTTP response as produced by the FastAPI endpoints: a status code and
a plain-text body (for error statuses, the `detail` message). -/
structure HTTPResponse where
  status : Nat
  body : String
deriving DecidableEq, Repr

/- ----------------------------------------------------------------
Path model.

Filesystem paths are resolved to canonical component lists, mirroring
`pathlib.Path(...).resolve()` on a tree without symbolic links: empty and
`.` components vanish and `..` removes the previous component.  The
filesystem itself is an oracle from canonical paths to optional file
contents.
---------------------------------------------------------------- -/

/-- Split a list of characters at every slash. -/
def splitSlashGo : List Char → List Char → List String
  | [], acc => [String.mk acc.reverse]
  | c :: cs, acc =>
      if c = '/' then String.mk acc.reverse :: splitSlashGo cs []
      else splitSlashGo cs (c :: acc)

/-- Split a path string at every slash, keeping empty components. -/
def splitOnSlash (s : String) : List String :=
  splitSlashGo s.data []

/-- One step of lexical path resolution. -/
def resolveStep (acc : List String) (component : String) : List String :=
  if component = "" || component = "." then acc
  else if component = ".." then acc.dropLast
  else acc ++ [component]

/-- Resolve a path string to its canonical component list, the embedding of
`Path(p).resolve()` for a filesystem without symbolic links. -/
def resolvePath (p : String) : List String :=
  (splitOnSlash p).foldl resolveStep []

/-- Whether the canonical path `p` lies at or below the root `root`
(component-wise ancestor test on resolved paths). -/
def isUnder : List String → List String → Bool
  | [], _ => true
  | _ :: _, [] => false
  | r :: rs, c :: cs => r == c && isUnder rs cs

/-- Embedding of the Python string method `startswith`. -/
def strStartsWith (s pre : String) : Bool :=
  pre.data.isPrefixOf s.data

/-- The workspace root designated by the system prompt in `src/app.py`
(file operations are instructed to stay inside `/data`). -/
def workspaceRoot : List String := ["data"]

/-- The directory that the `/read` endpoint in `src/app.py` joins request
paths under. -/
def appRoot : List String := ["app"]

/- ----------------------------------------------------------------
Concrete filesystem fixtures used by the concrete evaluations below.
---------------------------------------------------------------- -/

/-- Contents standing in for a file outside every workspace candidate. -/
def passwdText : String := "root:x:0:0:root:/root:/bin/bash"

/-- A filesystem holding exactly one file, `/etc/passwd`. -/
def etcFS : List String → Option String :=
  fun p => if p = ["etc", "passwd"] then some passwdText else none

/-- A filesystem holding no files at all. -/
def missingFS : List String → Option String :=
  fun _ => none

/- ----------------------------------------------------------------
Subprocess model.

`subprocess.run` is an oracle receiving the command text and the timeout
argument the caller passed (`none` when no timeout was supplied).
---------------------------------------------------------------- -/

/-- Outcome of a `subprocess.run` invocation: normal completion with a
return code and captured streams, expiry of the supplied timeout
(`subprocess.TimeoutExpired`), or a missing executable
(`FileNotFoundError`). -/
inductive SubprocResult where
  | completed (returncode : Int) (stdout : String) (stderr : String)
  | timedOut
  | notFound
deriving DecidableEq, Repr

/-- Embedding of `run_shell_command` from `src/agent/tools.py`: runs the
command through the shell with `check=True` and no timeout argument,
returns captured stdout on success and an error string on a nonzero exit
code; any other exception is uncaught. -/
def run_shell_command (subproc : String → Option Nat → SubprocResult)
    (command : String) : PyResult String :=
  match subproc command none with
  | SubprocResult.completed returncode stdout stderr =>
      if returncode = 0 then PyResult.ret stdout
      else PyResult.ret ("Error (" ++ toString returncode ++ "): " ++ stderr)
  | SubprocResult.timedOut => PyResult.raises "TimeoutExpired"
  | SubprocResult.notFound => PyResult.raises "FileNotFoundError"

/-- Whether a character is trimmed by the Python string method `strip`. -/
def isStripChar (c : Char) : Bool :=
  c = ' ' || c = '\t' || c = '\n' || c = '\r'

/-- Embedding of the Python string method `strip`. -/
def pyStrip (s : String) : String :=
  String.mk (((s.data.dropWhile isStripChar).reverse.dropWhile isStripChar).reverse)

/-- The command string built by `install_uv_package`. -/
def uvCommand (package_name extra_args : String) : String :=
  pyStrip ("uv pip install " ++ package_name ++ " " ++ extra_args ++ " --system")

/-- Embedding of `install_uv_package` from `src/agent/tools.py`: runs the
`uv pip install` command with a 300 second timeout and `check=True`,
catching `CalledProcessError` and `FileNotFoundError` but not
`TimeoutExpired`. -/
def install_uv_package (subproc : String → Option Nat → SubprocResult)
    (package_name : String) (extra_args : String) : PyResult String :=
  match subproc (uvCommand package_name extra_args) (some 300) with
  | SubprocResult.completed returncode stdout stderr =>
      if returncode = 0 then PyResult.ret ("Success:\n" ++ stdout)
      else PyResult.ret ("UV Error (" ++ toString returncode ++ "):\n" ++ stderr)
  | SubprocResult.timedOut => PyResult.raises "TimeoutExpired"
  | SubprocResult.notFound => PyResult.ret "Error: uv not found in PATH"

/-- A subprocess oracle whose reply reveals which timeout argument the
caller supplied. -/
def timeoutProbe : String → Option Nat → SubprocResult :=
  fun _ t =>
    match t with
    | none => SubprocResult.completed 0 "ran with no timeout" ""
    | some _ => SubprocResult.completed 0 "ran with a timeout" ""

/- ----------------------------------------------------------------
Capabilities reading and writing files directly.
---------------------------------------------------------------- -/

/-- Embedding of `image_to_text` from `src/agent/tools.py`: opens the image
at `image_path` with no validation and no exception handling and returns
the OCR text for its contents.  The OCR engine `ocr` is an oracle from
image bytes to extracted text. -/
def image_to_text (fs : List String → Option String) (ocr : String → String)
    (image_path : String) : PyResult String :=
  match fs (resolvePath image_path) with
  | some imageBytes => PyResult.ret (ocr imageBytes)
  | none => PyResult.raises "FileNotFoundError"

/-- Embedding of `md_to_html` from `src/agent/tools.py`: opens `md_path`
with no exception handling, renders it with the markdown library (the
oracle `mdRender`) and writes the result to `html_path`.  The second
component is the filesystem after the write. -/
def md_to_html (fs : List String → Option String) (mdRender : String → String)
    (md_path html_path : String) : PyResult String × (List String → Option String) :=
  match fs (resolvePath md_path) with
  | none => (PyResult.raises "FileNotFoundError", fs)
  | some mdText =>
      (PyResult.ret ("Converted " ++ md_path ++ " to " ++ html_path),
       fun p => if p = resolvePath html_path then some (mdRender mdText) else fs p)

/- ----------------------------------------------------------------
HTTP API call model for `make_api_call`.
---------------------------------------------------------------- -/

/-- The request handed to `requests.request`: method, url, headers, query
parameters, the `json=` payload, the `data=` payload, and the timeout in
seconds. -/
structure RequestSpec where
  method : String
  url : String
  reqHeaders : List (String × String)
  reqParams : Option String
  jsonPayload : Option String
  dataPayload : Option String
  timeout : Int
deriving DecidableEq, Repr

/-- The body argument of `make_api_call`: a dict (sent as JSON) or a raw
string. -/
inductive ApiBody where
  | jsonDict (payload : String)
  | raw (payload : String)
deriving DecidableEq, Repr

/-- A response object as returned by `requests.request`: status code,
headers, raw text, and the parsed JSON value when `response.json()`
succeeds. -/
structure HTTPResponseData where
  status_code : Nat
  respHeaders : List (String × String)
  text : String
  jsonData : Option String
deriving DecidableEq, Repr

/-- The `data` entry of the result dict of `make_api_call`: parsed JSON or
raw text. -/
inductive ApiData where
  | jsonVal (s : String)
  | textVal (s : String)
deriving DecidableEq, Repr

/-- The dict returned by `make_api_call`: either the success dict with
status code, headers and data, or a dict holding only an error message. -/
inductive ApiReturn where
  | success (status_code : Nat) (respHeaders : List (String × String)) (data : ApiData)
  | errorDict (msg : String)
deriving DecidableEq, Repr

/-- Embedding of the Python string method `upper` for ASCII text. -/
def pyUpper (s : String) : String :=
  String.mk (s.data.map Char.toUpper)

/-- Embedding of `dict.setdefault` on an association list of headers. -/
def setdefaultHeader (headers : List (String × String)) (k v : String) :
    List (String × String) :=
  if headers.any (fun p => p.1 == k) then headers else headers ++ [(k, v)]

/-- The `data` entry computed from a response: the parsed JSON when
`response.json()` succeeds, otherwise the raw text
(`json.JSONDecodeError` is caught). -/
def apiDataOf (r : HTTPResponseData) : ApiData :=
  match r.jsonData with
  | some j => ApiData.jsonVal j
  | none => ApiData.textVal r.text

/-- Embedding of `make_api_call` from `src/agent/tools.py`.  The network is
the oracle `net`; `Except.error` models `requests.request` raising a
`RequestException`, in which case the local variable `response` was never
bound, so the exception handler itself raises `NameError` when it
evaluates `response.text` inside its f-string. -/
def make_api_call (net : RequestSpec → Except String HTTPResponseData)
    (url : String) (method : String) (headers : Option (List (String × String)))
    (reqParams : Option String) (body : Option ApiBody) (timeout : Int) :
    PyResult ApiReturn :=
  if !(strStartsWith url "http://" || strStartsWith url "https://") then
    PyResult.ret (ApiReturn.errorDict "Invalid URL protocol, must be http:// or https://")
  else
    let m := pyUpper method
    if !(m == "GET" || m == "POST" || m == "PUT" || m == "DELETE" || m == "PATCH") then
      PyResult.ret (ApiReturn.errorDict
        ("Invalid method " ++ m ++ ", must be GET, POST, PUT, DELETE, or PATCH"))
    else
      let hdrs := (headers.getD [])
      let request :=
        match body with
        | none =>
            RequestSpec.mk m url hdrs reqParams none none timeout
        | some (ApiBody.jsonDict payload) =>
            RequestSpec.mk m url (setdefaultHeader hdrs "Content-Type" "application/json")
              reqParams (some payload) none timeout
        | some (ApiBody.raw payload) =>
            RequestSpec.mk m url hdrs reqParams none (some payload) timeout
      match net request with
      | Except.ok response =>
          PyResult.ret (ApiReturn.success response.status_code response.respHeaders
            (apiDataOf response))
      | Except.error _ => PyResult.raises "NameError"

/- ----------------------------------------------------------------
DuckDuckGo search model.
---------------------------------------------------------------- -/

/-- The search type enum of `src/agent/tools.py`. -/
inductive SearchType where
  | web
  | images
  | videos
  | news
deriving DecidableEq, Repr

/-- One result dict from the search backend; every field is optional, read
with `dict.get` fallbacks. -/
structure DDGResult where
  title : Option String
  href : Option String
  url : Option String
  body : Option String
  description : Option String
deriving DecidableEq, Repr

/-- One formatted line block of `duckduckgo_search` output for the result
at index `i`. -/
def resultLine (i : Nat) (r : DDGResult) : String :=
  toString (i + 1) ++ ". " ++ r.title.getD "No title" ++ "\n" ++
  "URL: " ++ r.href.getD (r.url.getD "No URL") ++ "\n" ++
  "Description: " ++ r.body.getD (r.description.getD "No description")

/-- Format the whole result list, numbering from `i`. -/
def ddgFormat : Nat → List DDGResult → List String
  | _, [] => []
  | i, r :: rs => resultLine i r :: ddgFormat (i + 1) rs

/-- Embedding of `str.join` on a list of strings. -/
def joinSep (sep : String) : List String → String
  | [] => ""
  | [x] => x
  | x :: y :: xs => x ++ sep ++ joinSep sep (y :: xs)

/-- The clamped result count passed to the search backend:
`min(max(1, max_results), 10)`. -/
def ddgCount (max_results : Int) : Int :=
  min (max 1 max_results) 10

/-- Embedding of `duckduckgo_search` from `src/agent/tools.py`: clamps
`max_results` to the range 1 to 10, queries the backend oracle for the
requested search type, and formats the results; the whole body sits in a
`try` block whose handler converts every exception into a
`Search error: ...` string. -/
def duckduckgo_search (backend : SearchType → String → Int → Except String (List DDGResult))
    (query : String) (search_type : SearchType) (max_results : Int) : PyResult String :=
  match backend search_type query (ddgCount max_results) with
  | Except.error e => PyResult.ret ("Search error: " ++ e)
  | Except.ok results =>
      if results.isEmpty then PyResult.ret "No results found"
      else PyResult.ret (joinSep "\n\n" (ddgFormat 0 results))

/-- A search backend that always fails, as the `ddgs` library does when
rate limited. -/
def ddgStubBackend : SearchType → String → Int → Except String (List DDGResult) :=
  fun _ _ _ => Except.error "DuckDuckGoSearchException"

/- ----------------------------------------------------------------
Orchestration loop and HTTP layer.

The ReAct loop itself lives in the external AgentExecutor library; the
repository only configures it (`src/app.py`, `max_iterations=20`).
---------------------------------------------------------------- -/

/-- One decision of the language model backend: invoke a tool or emit the
final answer. -/
inductive AgentDecision where
  | act (toolName : String) (toolInput : String)
  | finish (output : String)
deriving DecidableEq, Repr

/-- One recorded intermediate step of a run: the tool invoked, its input
and the observation returned. -/
structure AgentStep where
  toolName : String
  toolInput : String
  observation : String
deriving DecidableEq, Repr

/-- Modelled from the spec: the AgentExecutor loop is library code missing
from src, so it is embedded from the orchestrator description in the spec
together with the configuration in `src/app.py`.  Each pass asks the
decision oracle for the next step; a tool call appends exactly one
observation step and an uncaught tool exception aborts the loop.  The
first component is the outcome (final answer plus recorded steps, or the
escaped exception); the second counts the decisions consumed.  `fuel` is
the remaining iteration budget. -/
def agentLoop (dec : List AgentStep → AgentDecision)
    (inv : String → String → PyResult String) :
    Nat → List AgentStep → PyResult (String × List AgentStep) × Nat
  | 0, steps => (PyResult.ret ("Agent stopped due to iteration limit.", steps), 0)
  | fuel + 1, steps =>
      match dec steps with
      | AgentDecision.finish output => (PyResult.ret (output, steps), 1)
      | AgentDecision.act name input =>
          match inv name input with
          | PyResult.raises e => (PyResult.raises e, 1)
          | PyResult.ret obs =>
              let r := agentLoop dec inv fuel (steps ++ [AgentStep.mk name input obs])
              (r.1, r.2 + 1)

/-- The iteration cap configured on the AgentExecutor in `src/app.py`. -/
def max_iterations : Nat := 20

/-- A whole run of the configured executor: the loop started with the
iteration budget of `src/app.py` and no recorded steps. -/
def executor_run (dec : List AgentStep → AgentDecision)
    (inv : String → String → PyResult String) :
    PyResult (String × List AgentStep) × Nat :=
  agentLoop dec inv max_iterations []

/-- One turn held by the conversation memory: a human input or an AI
output. -/
inductive Message where
  | human (text : String)
  | ai (text : String)
deriving DecidableEq, Repr

/-- The process-wide `ConversationBufferMemory` of `src/app.py`: one
module-level buffer of messages, shared by every request. -/
structure ConversationBufferMemory where
  buffer : List Message
deriving DecidableEq, Repr

/-- The last `n` elements of a list, the embedding of the Python slice
`l[-n:]`. -/
def lastN {α : Type} (n : Nat) (l : List α) : List α :=
  l.drop (l.length - n)

/-- Embedding of the `POST /run` handler `run_task` from `src/app.py`.
`agentRun` is `executor.ainvoke` as a function of the chat history window
and the task; the handler passes `memory.buffer[-20:]` as the window.
Modelled from the spec where the library is involved: on a normal return
the memory saves the human input and the AI output (the
`input_key`/`output_key` configuration of the buffer memory in src); an
exception is caught and surfaced as a 500 response with its message, and
an empty task yields a 400 response. -/
def run_task (agentRun : List Message → String → PyResult String)
    (memory : ConversationBufferMemory) (task : String) :
    ConversationBufferMemory × HTTPResponse :=
  if task = "" then (memory, HTTPResponse.mk 400 "No task provided.")
  else
    match agentRun (lastN 20 memory.buffer) task with
    | PyResult.ret output =>
        (ConversationBufferMemory.mk
          (memory.buffer ++ [Message.human task, Message.ai output]),
         HTTPResponse.mk 200 output)
    | PyResult.raises e => (memory, HTTPResponse.mk 500 e)

/-- The canonical path that the `/read` endpoint opens for a request
path: the raw path is given a leading slash if absent, prefixed with
`/app`, and resolved. -/
def readTarget (path : String) : List String :=
  resolvePath ("/app" ++ (if strStartsWith path "/" then path else "/" ++ path))

/-- Embedding of the `GET /read` handler `read_file` from `src/app.py`:
returns the contents of the resolved file with status 200 when it exists
and a 404 response when `open` raises `FileNotFoundError`.  There is no
workspace containment check and no 403 branch. -/
def read_file (fs : List String → Option String) (path : String) : HTTPResponse :=
  match fs (readTarget path) with
  | some content => HTTPResponse.mk 200 content
  | none => HTTPResponse.mk 404 "File not found."

/- ----------------------------------------------------------------
Concrete decision and invocation fixtures used by the concrete
evaluations below.
---------------------------------------------------------------- -/

/-- A decision oracle that first asks for OCR of `/etc/passwd` and then
finishes. -/
def c1dec : List AgentStep → AgentDecision :=
  fun steps =>
    if steps.isEmpty then AgentDecision.act "image_to_text" "/etc/passwd"
    else AgentDecision.finish "done"

/-- A tool dispatcher that routes every call to `image_to_text` over the
fixture filesystem. -/
def c1inv : String → String → PyResult String :=
  fun _ input => image_to_text etcFS id input

/-- A tool dispatcher that routes `md_to_html` calls to the embedded tool
over the empty filesystem. -/
def mdInvoke : String → String → PyResult String :=
  fun name input =>
    if name = "md_to_html" then (md_to_html missingFS id input "out.html").1
    else PyResult.ret "unknown tool"

/-- An agent backend that always asks for `md_to_html` on the task string,
run through the configured executor loop. -/
def mdAgent : List Message → String → PyResult String :=
  fun _ task =>
    match (agentLoop (fun _ => AgentDecision.act "md_to_html" task) mdInvoke
        max_iterations []).1 with
    | PyResult.ret p => PyResult.ret p.1
    | PyResult.raises e => PyResult.raises e

/-- An agent backend that reports whether the window handed to it contains
the human turn of an earlier request. -/
def leakProbe : List Message → String → PyResult String :=
  fun history _ =>
    if Message.human "first task" ∈ history then PyResult.ret "LEAKED"
    else PyResult.ret "clean"

/- ----------------------------------------------------------------
Helper lemmas.
---------------------------------------------------------------- -/

theorem lastN_length_le {α : Type} (n : Nat) (l : List α) : (lastN n l).length ≤ n := by
  simp [lastN]
  omega

theorem lastN_suffix {α : Type} (n : Nat) (l : List α) : lastN n l <:+ l :=
  ⟨l.take (l.length - n), List.take_append_drop _ _⟩

theorem lastN_of_length_le {α : Type} {n : Nat} {l : List α} (h : l.length ≤ n) :
    lastN n l = l := by
  unfold lastN
  rw [Nat.sub_eq_zero_of_le h, List.drop_zero]

theorem agentLoop_decisions_le (dec : List AgentStep → AgentDecision)
    (inv : String → String → PyResult String) :
    ∀ (fuel : Nat) (steps : List AgentStep), (agentLoop dec inv fuel steps).2 ≤ fuel := by
  intro fuel
  induction fuel with
  | zero => intro steps; exact Nat.le_refl 0
  | succ n ih =>
      intro steps
      cases hdec : dec steps with
      | finish output =>
          have h1 : (agentLoop dec inv (n + 1) steps).2 = 1 := by
            simp [agentLoop, hdec]
          omega
      | act name input =>
          cases hinv : inv name input with
          | raises e =>
              have h1 : (agentLoop dec inv (n + 1) steps).2 = 1 := by
                simp [agentLoop, hdec, hinv]
              omega
          | ret obs =>
              have h1 : (agentLoop dec inv (n + 1) steps).2
                  = (agentLoop dec inv n (steps ++ [AgentStep.mk name input obs])).2 + 1 := by
                simp [agentLoop, hdec, hinv]
              have h2 := ih (steps ++ [AgentStep.mk name input obs])
              omega

theorem duckduckgo_search_ret (backend : SearchType → String → Int → Except String (List DDGResult))
    (q : String) (st : SearchType) (m : Int) :
    ∃ s, duckduckgo_search backend q st m = PyResult.ret s := by
  unfold duckduckgo_search
  cases backend st q (ddgCount m) with
  | error e => exact ⟨_, rfl⟩
  | ok results =>
      cases h : results.isEmpty with
      | true => exact ⟨"No results found", by simp [h]⟩
      | false => exact ⟨joinSep "\n\n" (ddgFormat 0 results), by simp [h]⟩

/- ----------------------------------------------------------------
Claim theorems.
---------------------------------------------------------------- -/

/-- C1 counterexample: the path `/etc/passwd` resolves outside the
workspace root, yet `image_to_text` executes on it with no rejection and
returns the file contents, and a run of the configured executor records
that outside content as an observation. -/
theorem outside_path_read_without_rejection :
    image_to_text etcFS id "/etc/passwd" = PyResult.ret passwdText ∧
    isUnder workspaceRoot (resolvePath "/etc/passwd") = false ∧
    (executor_run c1dec c1inv).1
      = PyResult.ret ("done", [AgentStep.mk "image_to_text" "/etc/passwd" passwdText]) := by
  decide

/-- C1 amended: no validation step exists; for every path argument,
including every path resolving outside the workspace root, `image_to_text`
reads the file at that path and returns the extracted text, so outside
file contents do enter the results the loop records. -/
theorem image_to_text_no_validation (fs : List String → Option String)
    (ocr : String → String) (path content : String)
    (houtside : isUnder workspaceRoot (resolvePath path) = false)
    (hfile : fs (resolvePath path) = some content) :
    image_to_text fs ocr path = PyResult.ret (ocr content) := by
  unfold image_to_text
  rw [hfile]

/-- Witness for the amended C1 theorem at a concrete outside path. -/
theorem image_to_text_no_validation_witness :
    image_to_text etcFS id "/etc/passwd" = PyResult.ret (id passwdText) :=
  image_to_text_no_validation etcFS id "/etc/passwd" passwdText (by decide) (by decide)

/-- C2 counterexample: the request path `../etc/passwd` escapes the `/app`
base directory through `..` resolution, lies outside every workspace
candidate, and the endpoint serves its contents with status 200 instead of
403. -/
theorem read_file_serves_outside_workspace :
    read_file etcFS "../etc/passwd" = HTTPResponse.mk 200 passwdText ∧
    isUnder appRoot (readTarget "../etc/passwd") = false ∧
    isUnder workspaceRoot (readTarget "../etc/passwd") = false ∧
    (read_file etcFS "../etc/passwd").status ≠ 403 := by
  decide

/-- C2 amended: for every filesystem and request path, `GET /read` returns
status 200 with the contents of the resolved file whenever it exists,
wherever it resolves, and status 404 when it is absent; no input produces
status 403. -/
theorem read_file_never_403 (fs : List String → Option String) (path : String) :
    ((read_file fs path).status = 200 ∧
      fs (readTarget path) = some (read_file fs path).body) ∨
    ((read_file fs path).status = 404 ∧ fs (readTarget path) = none) := by
  unfold read_file
  cases h : fs (readTarget path) with
  | none => exact Or.inr ⟨rfl, rfl⟩
  | some c => exact Or.inl ⟨rfl, rfl⟩

/-- C3 counterexample: a file-deletion command is handed to the shell and
its outcome decides the returned observation, so deletion is not rejected
statically: two shells that differ only in how the deletion went produce
different results. -/
theorem run_shell_command_executes_delete :
    run_shell_command (fun _ _ => SubprocResult.completed 0 "notes.txt removed" "")
        "rm -rf /data/notes.txt" = PyResult.ret "notes.txt removed" ∧
    run_shell_command (fun _ _ => SubprocResult.completed 1 "" "permission denied")
        "rm -rf /data/notes.txt" = PyResult.ret "Error (1): permission denied" := by
  decide

/-- C3 amended: no validation layer exists and no capability carries a
side-effect class; `run_shell_command` forwards every command, deletion
commands included, to the shell unconditionally and returns the shell
output. -/
theorem run_shell_command_forwards_every_command
    (subproc : String → Option Nat → SubprocResult) (command stdout stderr : String)
    (hexec : subproc command none = SubprocResult.completed 0 stdout stderr) :
    run_shell_command subproc command = PyResult.ret stdout := by
  unfold run_shell_command
  rw [hexec]
  simp

/-- Witness for the amended C3 theorem at a concrete deletion command. -/
theorem run_shell_command_forwards_every_command_witness :
    run_shell_command (fun _ _ => SubprocResult.completed 0 "gone" "") "rm -rf /data"
      = PyResult.ret "gone" :=
  run_shell_command_forwards_every_command
    (fun _ _ => SubprocResult.completed 0 "gone" "") "rm -rf /data" "gone" "" rfl

/-- C4 counterexample: two consecutive requests with different tasks reach
the single module-level memory; the second run is handed a window that
contains the first request turns, and its output depends on them. -/
theorem second_request_reads_first_request_history :
    (run_task leakProbe
        (run_task (fun _ _ => PyResult.ret "done")
          (ConversationBufferMemory.mk []) "first task").1
        "second task").2 = HTTPResponse.mk 200 "LEAKED" := by
  decide

/-- C4 amended: one process-wide `ConversationBufferMemory` is shared by
every request; each run appends its turns to the same global buffer, so
the window presented to any later request contains the human turn of an
earlier request (whenever the buffer is short enough for the window to
reach it). -/
theorem global_memory_shared_across_requests
    (agentRun : List Message → String → PyResult String)
    (mem : ConversationBufferMemory) (t out : String)
    (ht : t ≠ "") (hlen : mem.buffer.length ≤ 18)
    (hrun : agentRun (lastN 20 mem.buffer) t = PyResult.ret out) :
    Message.human t ∈ lastN 20 ((run_task agentRun mem t).1).buffer := by
  unfold run_task
  rw [if_neg ht, hrun]
  show Message.human t ∈ lastN 20 (mem.buffer ++ [Message.human t, Message.ai out])
  rw [lastN_of_length_le (by simp; omega)]
  simp

/-- Witness for the amended C4 theorem at a concrete request. -/
theorem global_memory_shared_across_requests_witness :
    Message.human "alpha" ∈ lastN 20
      ((run_task (fun _ _ => PyResult.ret "done")
        (ConversationBufferMemory.mk []) "alpha").1).buffer :=
  global_memory_shared_across_requests (fun _ _ => PyResult.ret "done")
    (ConversationBufferMemory.mk []) "alpha" "done" (by decide) (by decide) rfl

/-- C5 counterexample: the subprocess invocation of `run_shell_command`
carries no timeout at all, and when the 300 second timeout of
`install_uv_package` elapses the tool raises `TimeoutExpired` instead of
returning a failure result with error `timeout`. -/
theorem run_shell_command_unbounded_uv_timeout_raises :
    run_shell_command timeoutProbe "sleep 100000" = PyResult.ret "ran with no timeout" ∧
    install_uv_package (fun _ _ => SubprocResult.timedOut) "torch" ""
      = PyResult.raises "TimeoutExpired" := by
  decide

/-- C5 amended: only some invocations are bounded: `install_uv_package`
passes a 300 second subprocess timeout (and `make_api_call` a default 30
second request timeout), while `run_shell_command` passes none, so its
result is fully determined by the unbounded-call behaviour of the shell;
and an elapsed timeout raises `TimeoutExpired` rather than producing an
error value `timeout`. -/
theorem shell_timeout_absent_uv_timeout_uncaught
    (o₁ o₂ : String → Option Nat → SubprocResult) (command package extra : String)
    (hagree : o₁ command none = o₂ command none)
    (htimeout : o₂ (uvCommand package extra) (some 300) = SubprocResult.timedOut) :
    run_shell_command o₁ command = run_shell_command o₂ command ∧
    install_uv_package o₂ package extra = PyResult.raises "TimeoutExpired" := by
  constructor
  · unfold run_shell_command
    rw [hagree]
  · unfold install_uv_package
    rw [htimeout]

/-- A subprocess oracle that times out exactly when called with the 300
second timeout. -/
def uvTimeoutOracle : String → Option Nat → SubprocResult :=
  fun _ t =>
    if t = some 300 then SubprocResult.timedOut else SubprocResult.completed 0 "" ""

/-- Witness for the amended C5 theorem at concrete commands. -/
theorem shell_timeout_absent_uv_timeout_uncaught_witness :
    run_shell_command uvTimeoutOracle "sleep 5" = run_shell_command uvTimeoutOracle "sleep 5" ∧
    install_uv_package uvTimeoutOracle "torch" "" = PyResult.raises "TimeoutExpired" :=
  shell_timeout_absent_uv_timeout_uncaught uvTimeoutOracle uvTimeoutOracle
    "sleep 5" "torch" "" rfl (by decide)

/-- C6: for every decision oracle and every tool dispatcher, the configured
executor reaches a terminal outcome, consuming at most `max_iterations`
(20) decisions: the loop halts even when the decision oracle keeps
proposing capability calls. -/
theorem executor_terminates_within_cap (dec : List AgentStep → AgentDecision)
    (inv : String → String → PyResult String) :
    (executor_run dec inv).2 ≤ max_iterations ∧
    ((∃ out steps, (executor_run dec inv).1 = PyResult.ret (out, steps)) ∨
      (∃ e, (executor_run dec inv).1 = PyResult.raises e)) := by
  constructor
  · exact agentLoop_decisions_le dec inv max_iterations []
  · cases h : (executor_run dec inv).1 with
    | ret p => exact Or.inl ⟨p.1, p.2, rfl⟩
    | raises e => exact Or.inr ⟨e, rfl⟩

/-- C7 counterexample: `md_to_html` on a missing file raises
`FileNotFoundError` instead of returning a structured result, and the
exception crosses the loop into the HTTP layer: the run answers status 500
carrying the exception text and no observation is recorded (the memory is
unchanged). -/
theorem md_to_html_exception_reaches_http :
    (md_to_html missingFS id "notes.md" "out.html").1 = PyResult.raises "FileNotFoundError" ∧
    run_task mdAgent (ConversationBufferMemory.mk []) "notes.md"
      = (ConversationBufferMemory.mk [], HTTPResponse.mk 500 "FileNotFoundError") := by
  decide

/-- C7 amended: capabilities without their own handler (`image_to_text`,
`md_to_html`, `csv_to_json`) let exceptions escape; such an exception
propagates out of the run uncaught and is converted only at the HTTP
boundary into a 500 response carrying the exception message, with the
memory left unchanged and no observation recorded. -/
theorem unwrapped_capability_exception_becomes_500
    (fs : List String → Option String) (mdRender : String → String)
    (md_path html_path : String)
    (agentRun : List Message → String → PyResult String)
    (mem : ConversationBufferMemory) (task e : String)
    (hmissing : fs (resolvePath md_path) = none)
    (htask : task ≠ "")
    (hrun : agentRun (lastN 20 mem.buffer) task = PyResult.raises e) :
    (md_to_html fs mdRender md_path html_path).1 = PyResult.raises "FileNotFoundError" ∧
    run_task agentRun mem task = (mem, HTTPResponse.mk 500 e) := by
  constructor
  · unfold md_to_html
    rw [hmissing]
  · unfold run_task
    rw [if_neg htask, hrun]

/-- Witness for the amended C7 theorem at a concrete missing file and
failing run. -/
theorem unwrapped_capability_exception_becomes_500_witness :
    (md_to_html missingFS id "a.md" "a.html").1 = PyResult.raises "FileNotFoundError" ∧
    run_task (fun _ _ => PyResult.raises "boom") (ConversationBufferMemory.mk []) "hello"
      = (ConversationBufferMemory.mk [], HTTPResponse.mk 500 "boom") :=
  unwrapped_capability_exception_becomes_500 missingFS id "a.md" "a.html"
    (fun _ _ => PyResult.raises "boom") (ConversationBufferMemory.mk [])
    "hello" "boom" rfl (by decide) rfl

/-- C8: the chat history handed to the agent backend is the slice
`memory.buffer[-20:]`: at most 20 turns and a suffix of the stored
history, while the store itself retains the full ordered history, extended
by the new human and AI turns after the run. -/
theorem window_bounded_and_history_retained
    (agentRun : List Message → String → PyResult String)
    (mem : ConversationBufferMemory) (task out : String)
    (ht : task ≠ "") (hrun : agentRun (lastN 20 mem.buffer) task = PyResult.ret out) :
    (lastN 20 mem.buffer).length ≤ 20 ∧
    lastN 20 mem.buffer <:+ mem.buffer ∧
    ((run_task agentRun mem task).1).buffer
      = mem.buffer ++ [Message.human task, Message.ai out] := by
  refine ⟨lastN_length_le 20 mem.buffer, lastN_suffix 20 mem.buffer, ?_⟩
  unfold run_task
  rw [if_neg ht, hrun]

/-- Witness for the C8 theorem at a concrete request. -/
theorem window_bounded_and_history_retained_witness :
    (lastN 20 (ConversationBufferMemory.mk []).buffer).length ≤ 20 ∧
    lastN 20 (ConversationBufferMemory.mk []).buffer <:+ (ConversationBufferMemory.mk []).buffer ∧
    ((run_task (fun _ _ => PyResult.ret "hi") (ConversationBufferMemory.mk []) "greet").1).buffer
      = (ConversationBufferMemory.mk []).buffer ++ [Message.human "greet", Message.ai "hi"] :=
  window_bounded_and_history_retained (fun _ _ => PyResult.ret "hi")
    (ConversationBufferMemory.mk []) "greet" "hi" (by decide) rfl

/-- C9: when `requests.request` itself fails, `make_api_call` does not
return its structured error dict: the handler dereferences the unbound
local `response` and the call raises `NameError`; when the request
succeeds, the structured success dict is returned as documented. -/
theorem make_api_call_unbound_response_on_failure (msg : String) (r : HTTPResponseData) :
    make_api_call (fun _ => Except.error msg) "http://example.com" "GET" none none none 30
      = PyResult.raises "NameError" ∧
    make_api_call (fun _ => Except.ok r) "http://example.com" "GET" none none none 30
      = PyResult.ret (ApiReturn.success r.status_code r.respHeaders (apiDataOf r)) :=
  ⟨rfl, rfl⟩

/-- C10: `duckduckgo_search` consults the backend only at a count in the
inclusive range 1 to 10 (the clamp of `max_results`), and for every input
it returns a string, converting backend failures into a
`Search error: ...` string instead of raising. -/
theorem duckduckgo_search_clamps_and_never_raises
    (b₁ b₂ : SearchType → String → Int → Except String (List DDGResult))
    (q : String) (st : SearchType) (m : Int)
    (hagree : ∀ t s n, 1 ≤ n → n ≤ 10 → b₁ t s n = b₂ t s n) :
    (1 ≤ ddgCount m ∧ ddgCount m ≤ 10) ∧
    duckduckgo_search b₁ q st m = duckduckgo_search b₂ q st m ∧
    ∃ s, duckduckgo_search b₁ q st m = PyResult.ret s := by
  have h1 : 1 ≤ ddgCount m := le_min (le_max_left 1 m) (by norm_num)
  have h2 : ddgCount m ≤ 10 := min_le_right _ _
  refine ⟨⟨h1, h2⟩, ?_, duckduckgo_search_ret b₁ q st m⟩
  unfold duckduckgo_search
  rw [hagree st q (ddgCount m) h1 h2]

/-- Witness for the C10 theorem at a concrete query with an out-of-range
`max_results` and a failing backend. -/
theorem duckduckgo_search_clamps_witness :
    (1 ≤ ddgCount 99 ∧ ddgCount 99 ≤ 10) ∧
    duckduckgo_search ddgStubBackend "weather" SearchType.web 99
      = duckduckgo_search ddgStubBackend "weather" SearchType.web 99 ∧
    ∃ s, duckduckgo_search ddgStubBackend "weather" SearchType.web 99 = PyResult.ret s :=
  duckduckgo_search_clamps_and_never_raises ddgStubBackend ddgStubBackend "weather"
    SearchType.web 99 (fun _ _ _ _ _ => rfl)
